import Mathlib

/-!
Shallow embedding of the Geo-Data Join & Classification Engine of the
election-map repository (the map component: join resolvers, winner
selection, metric derivation, per-view classification, and styling).
JS numbers are modelled as rationals; JS objects used as string-keyed
mappings are modelled as association lists looked up by first match;
`undefined`/`null` are modelled with `Option`.
-/

/-- One per-precinct election record: `item_id`, total `votes`, and the
candidate-key to vote-count mapping (`results`), as in the results dataset. -/
structure PrecinctResult where
  item_id : String
  votes : ℚ
  results : List (String × ℚ)
deriving DecidableEq

/-- One voter-registration record (six party categories, a county and a total). -/
structure VoterCounts where
  district : Int
  county : String
  democrats : ℚ
  republicans : ℚ
  conservatives : ℚ
  working_families : ℚ
  other : ℚ
  blank : ℚ
  total : ℚ
deriving DecidableEq

/-- A geometry feature, reduced to the only property the styling code reads:
`feature.properties.ElectDist`. -/
structure Feature where
  ElectDist : Int
deriving DecidableEq

/-- The fixed-shape leaflet style object returned by every precinct styling
function. -/
structure Style where
  fillColor : String
  weight : ℚ
  opacity : ℚ
  color : String
  dashArray : String
  fillOpacity : ℚ
deriving DecidableEq

/-- The closed set of view modes of the map component. -/
inductive ViewMode where
  | electionResults
  | voterRegistration
  | turnout
  | ageDemographics
  | zohranSupport
deriving DecidableEq

/-- JS object property lookup on an association list: first entry whose key
matches (object keys are unique, so first match is the match). -/
def jsLookup {α : Type} (l : List (String × α)) (k : String) : Option α :=
  (l.find? (fun p => p.1 == k)).map (fun p => p.2)

/-- Embeds `getPrecinctResults`: find the first record of `results.precincts`
whose `item_id` equals the decimal-string form of the district number;
`undefined` (here `none`) when there is no match. -/
def getPrecinctResults (precincts : List PrecinctResult) (electDist : Int) : Option PrecinctResult :=
  precincts.find? (fun p => p.item_id == toString electDist)

/-- One entry of a candidate mapping. -/
abbrev CandidateEntry := String × ℚ

/-- Stable insertion (descending by vote count) used to embed the JS
`Array.prototype.sort` call with comparator `(b - a)`: an element is placed
before the first already-sorted element with a smaller-or-equal count, so
earlier-encountered entries stay first among exact ties. -/
def insertByVotes (x : CandidateEntry) : List CandidateEntry → List CandidateEntry
  | [] => [x]
  | y :: t => if y.2 ≤ x.2 then x :: y :: t else y :: insertByVotes x t

/-- Stable sort, descending by vote count (insertion sort; JS sort with a
consistent comparator is specified stable, and all stable sorts agree). -/
def sortByVotesDesc : List CandidateEntry → List CandidateEntry
  | [] => []
  | x :: t => insertByVotes x (sortByVotesDesc t)

/-- The non-write-in candidate entries, in mapping insertion order: embeds
`Object.entries(precinctResults.results).filter(([key]) => key !== "total_writeins")`. -/
def filteredCandidates (pr : PrecinctResult) : List CandidateEntry :=
  pr.results.filter (fun p => p.1 != ("total_writeins"))

/-- Embeds `getWinningCandidate`: `null` for a missing record; otherwise sort
the non-write-in entries descending by count and take `candidates[0]?.[0] || null`
(JS `|| null` also maps an empty-string key, which is falsy, to `null`). -/
def getWinningCandidate (res : Option PrecinctResult) : Option String :=
  match res with
  | none => none
  | some pr =>
    match sortByVotesDesc (filteredCandidates pr) with
    | [] => none
    | c :: _ => if c.1 = ("") then none else some c.1

/-- First-encountered maximum of a candidate list: the entry with the largest
count, keeping the earlier entry on exact ties (specification-side helper used
to characterise the winner). -/
def firstMax : List CandidateEntry → Option CandidateEntry
  | [] => none
  | x :: t =>
    match firstMax t with
    | none => some x
    | some m => if m.2 > x.2 then some m else some x

/-- The candidate base-hue table of `stylePrecinctByResults`. -/
def candidateBaseColors : List (String × String) :=
  [(("cuomo-a"), ("#1f77b4")),
   (("lander-b"), ("#ff7f0e")),
   (("mamdani-z"), ("#2ca02c")),
   (("ramos-j"), ("#d62728")),
   (("stringer-s"), ("#9467bd")),
   (("blake-m"), ("#8c564b")),
   (("myrie-z"), ("#e377c2")),
   (("tilson-w"), ("#7f7f7f")),
   (("adams-a"), ("#bcbd22"))]

/-- Embeds `candidateBaseColors[winningCandidate] || "#cccccc"` (every table
value is a non-empty literal, so JS `||` is exactly the default on a miss). -/
def baseColorFor (k : String) : String :=
  (jsLookup candidateBaseColors k).getD ("#cccccc")

/-- Value of one hex digit, as read by `parseInt(..., 16)` on valid hex input. -/
def hexDigitVal (c : Char) : Nat :=
  if ('0') ≤ c ∧ c ≤ ('9') then c.toNat - ('0').toNat
  else if ('a') ≤ c ∧ c ≤ ('f') then c.toNat - ('a').toNat + 10
  else if ('A') ≤ c ∧ c ≤ ('F') then c.toNat - ('A').toNat + 10
  else 0

/-- Embeds `parseInt(hex.substr(i, 2), 16)` on a valid 6-hex-digit string. -/
def hexPairVal (s : String) (i : Nat) : Nat :=
  16 * hexDigitVal (s.data.getD i ('0')) + hexDigitVal (s.data.getD (i + 1) ('0'))

/-- Embeds `color.replace("#", "")`: the JS string-pattern `replace` removes
the first occurrence only, which on a leading-hash color string is dropping
that leading hash. -/
def stripHash (s : String) : String :=
  if s.startsWith ("#") then s.drop 1 else s

/-- Embeds `Math.max(0, Math.floor(c * (1 - amount)))` on one RGB channel. -/
def darkenChannel (c : Nat) (amount : ℚ) : Int :=
  max 0 (Int.floor ((c : ℚ) * (1 - amount)))

/-- Embeds `Math.min(255, Math.floor(c + (255 - c) * amount))` on one RGB channel. -/
def lightenChannel (c : Nat) (amount : ℚ) : Int :=
  min 255 (Int.floor ((c : ℚ) + ((255 : ℚ) - (c : ℚ)) * amount))

/-- Lowercase base-16 rendering of a natural number, as `n.toString(16)`. -/
def natToHexDigits (n : Nat) : String :=
  String.mk (Nat.toDigits 16 n)

/-- Embeds `padStart(2, "0")`. -/
def padHex2 (s : String) : String :=
  if s.length < 2 then ("0") ++ s else s

/-- One channel rendered as two lowercase hex digits (`toString(16).padStart(2, "0")`). -/
def byteToHex (n : Int) : String :=
  padHex2 (natToHexDigits n.toNat)

/-- Embeds `darkenColor`: parse the three RGB channels of a `#rrggbb` string,
scale each down by `amount`, floor, clamp at 0, and re-render as hex. -/
def darkenColor (color : String) (amount : ℚ) : String :=
  let hex := stripHash color
  let r := hexPairVal hex 0
  let g := hexPairVal hex 2
  let b := hexPairVal hex 4
  ("#") ++ byteToHex (darkenChannel r amount) ++ byteToHex (darkenChannel g amount)
    ++ byteToHex (darkenChannel b amount)

/-- Embeds `lightenColor`: move each RGB channel toward 255 by `amount`,
floor, clamp at 255, and re-render as hex. -/
def lightenColor (color : String) (amount : ℚ) : String :=
  let hex := stripHash color
  let r := hexPairVal hex 0
  let g := hexPairVal hex 2
  let b := hexPairVal hex 4
  ("#") ++ byteToHex (lightenChannel r amount) ++ byteToHex (lightenChannel g amount)
    ++ byteToHex (lightenChannel b amount)

/-- The shared early-return style object (`fillColor: "#cccccc"` with the
fixed stroke attributes), returned whenever join data is missing. -/
def noDataStyle : Style :=
  ⟨("#cccccc"), 1, 1, ("white"), ("3"), 7/10⟩

/-- The win-percentage computed by `stylePrecinctByResults`:
`totalVotes > 0 ? (winningVotes / totalVotes) * 100 : 0`. -/
def winPercentageOf (pr : PrecinctResult) (w : String) : ℚ :=
  if pr.votes > 0 then (jsLookup pr.results w).getD 0 / pr.votes * 100 else 0

/-- The margin-tier shading chain of `stylePrecinctByResults`. -/
def resultsFillColor (baseColor : String) (winPercentage : ℚ) : String :=
  if winPercentage ≥ 80 then darkenColor baseColor 0.3
  else if winPercentage ≥ 60 then darkenColor baseColor 0.2
  else if winPercentage ≥ 50 then baseColor
  else if winPercentage ≥ 40 then lightenColor baseColor 0.2
  else lightenColor baseColor 0.4

/-- Embeds `stylePrecinctByResults`. -/
def stylePrecinctByResults (precincts : List PrecinctResult) (f : Feature) : Style :=
  match getPrecinctResults precincts f.ElectDist,
        getWinningCandidate (getPrecinctResults precincts f.ElectDist) with
  | some pr, some w =>
    ⟨resultsFillColor (baseColorFor w) (winPercentageOf pr w), 1, 1, ("white"), ("3"), 7/10⟩
  | _, _ => noDataStyle

/-- The Democratic-turnout threshold chain of `stylePrecinctByTurnout`. -/
def turnoutFillColor (m : ℚ) : String :=
  if m ≥ 60 then ("#1a365d")
  else if m ≥ 50 then ("#2c5282")
  else if m ≥ 40 then ("#3182ce")
  else if m ≥ 30 then ("#63b3ed")
  else if m ≥ 20 then ("#90cdf4")
  else ("#bee3f8")

/-- Embeds `stylePrecinctByTurnout` (no-data when the election record, the
registration record, or a non-zero Democratic registration count is missing). -/
def stylePrecinctByTurnout (precincts : List PrecinctResult)
    (voterCounts : Int → Option VoterCounts) (f : Feature) : Style :=
  match getPrecinctResults precincts f.ElectDist, voterCounts f.ElectDist with
  | some pr, some vd =>
    if vd.democrats = 0 then noDataStyle
    else ⟨turnoutFillColor (pr.votes / vd.democrats * 100), 1, 1, ("white"), ("3"), 7/10⟩
  | _, _ => noDataStyle

/-- The Democratic-share threshold chain of `stylePrecinctByVoters`. -/
def votersFillColor (m : ℚ) : String :=
  if m < 30 then ("#d62728")
  else if m < 40 then ("#ff7f0e")
  else if m < 50 then ("#ffbb78")
  else if m < 60 then ("#aec7e8")
  else if m < 70 then ("#1f77b4")
  else ("#0d47a1")

/-- The Democratic registration share of `stylePrecinctByVoters`:
`total > 0 ? (democrats / total) * 100 : 0`. -/
def demPercentageOf (vd : VoterCounts) : ℚ :=
  if vd.total > 0 then vd.democrats / vd.total * 100 else 0

/-- Embeds `stylePrecinctByVoters` (no-data only when the registration record
itself is missing). -/
def stylePrecinctByVoters (voterCounts : Int → Option VoterCounts) (f : Feature) : Style :=
  match voterCounts f.ElectDist with
  | none => noDataStyle
  | some vd => ⟨votersFillColor (demPercentageOf vd), 1, 1, ("white"), ("3"), 7/10⟩

/-- The targeted-support threshold chain of `stylePrecinctByZohranSupport`. -/
def zohranFillColor (m : ℚ) : String :=
  if m ≥ 20 then ("#276419")
  else if m ≥ 15 then ("#4d9221")
  else if m ≥ 10 then ("#7fbc41")
  else if m ≥ 7.5 then ("#b8e186")
  else if m ≥ 5 then ("#d9f0a3")
  else if m ≥ 2.5 then ("#f1b6da")
  else if m > 0 then ("#de77ae")
  else ("#c51b7d")

/-- Embeds `precinctResults.results["mamdani-z"] || 0`: a missing entry (and a zero
entry, which is falsy) yields 0. -/
def zohranVotesOf (pr : PrecinctResult) : ℚ :=
  (jsLookup pr.results ("mamdani-z")).getD 0

/-- Embeds `stylePrecinctByZohranSupport` (no-data when either record is
missing or the registered total is exactly 0). -/
def stylePrecinctByZohranSupport (precincts : List PrecinctResult)
    (voterCounts : Int → Option VoterCounts) (f : Feature) : Style :=
  match getPrecinctResults precincts f.ElectDist, voterCounts f.ElectDist with
  | some pr, some vd =>
    if vd.total = 0 then noDataStyle
    else ⟨zohranFillColor (zohranVotesOf pr / vd.total * 100), 1, 1, ("white"), ("3"), 7/10⟩
  | _, _ => noDataStyle

/-- Embeds the view-mode dispatch of the `Map` component: the chained ternary
choosing the styling function (every mode other than results, turnout and
zohran-support falls through to the registration styling). -/
def styleFunction (precincts : List PrecinctResult)
    (voterCounts : Int → Option VoterCounts) (viewMode : ViewMode) (f : Feature) : Style :=
  if viewMode = ViewMode.electionResults then stylePrecinctByResults precincts f
  else if viewMode = ViewMode.turnout then stylePrecinctByTurnout precincts voterCounts f
  else if viewMode = ViewMode.zohranSupport then stylePrecinctByZohranSupport precincts voterCounts f
  else stylePrecinctByVoters voterCounts f

/-- The join records the active view dereferences: the results view needs the
election record; turnout and zohran-support need both; the registration view
(and the age-demographics fall-through, which dispatches to the registration
styling) needs the registration record. -/
def requiredRecordMissing (precincts : List PrecinctResult)
    (voterCounts : Int → Option VoterCounts) (m : ViewMode) (f : Feature) : Prop :=
  match m with
  | ViewMode.electionResults => getPrecinctResults precincts f.ElectDist = none
  | ViewMode.turnout =>
      getPrecinctResults precincts f.ElectDist = none ∨ voterCounts f.ElectDist = none
  | ViewMode.voterRegistration => voterCounts f.ElectDist = none
  | ViewMode.ageDemographics => voterCounts f.ElectDist = none
  | ViewMode.zohranSupport =>
      getPrecinctResults precincts f.ElectDist = none ∨ voterCounts f.ElectDist = none

/-- The per-bracket loop body of `calculateGenZPercentage`: a bracket
contributes only when its `total` is a number greater than 0, with weight 0.8
for ages 10-14, full weight for 15-19 and 20-24, and weight 0.4 for 25-29. -/
def genZContribution (p : String × Option ℚ) : ℚ :=
  match p.2 with
  | none => 0
  | some count =>
    if count > 0 then
      if p.1 = ("10 to 14 years") then count * 0.8
      else if p.1 = ("15 to 19 years") then count
      else if p.1 = ("20 to 24 years") then count
      else if p.1 = ("25 to 29 years") then count * 0.4
      else 0
    else 0

/-- The accumulated `genZCount` of the loop in `calculateGenZPercentage`. -/
def genZCount (groups : List (String × Option ℚ)) : ℚ :=
  groups.foldl (fun acc p => acc + genZContribution p) 0

/-- Embeds `calculateGenZPercentage`: `null` when the age-group object is
absent or the total population is falsy (0), and - after the loop - also when
the accumulated Gen-Z count is 0; otherwise the percentage. -/
def calculateGenZPercentage (ageGroups : Option (List (String × Option ℚ)))
    (totalPopulation : ℚ) : Option ℚ :=
  match ageGroups with
  | none => none
  | some groups =>
    if totalPopulation = 0 then none
    else
      if genZCount groups = 0 then none
      else some (genZCount groups / totalPopulation * 100)

/-- The `total` of a named bracket as the formula of the specification reads it
(0 when the bracket or its total is absent). -/
def bracketTotal (groups : List (String × Option ℚ)) (name : String) : ℚ :=
  ((jsLookup groups name).bind id).getD 0

/-- The Gen-Z weighted sum as the specification words it:
`0.8 x count(10-14) + count(15-19) + count(20-24) + 0.4 x count(25-29)`. -/
def specGenZWeightedSum (groups : List (String × Option ℚ)) : ℚ :=
  0.8 * bracketTotal groups ("10 to 14 years") + bracketTotal groups ("15 to 19 years")
    + bracketTotal groups ("20 to 24 years") + 0.4 * bracketTotal groups ("25 to 29 years")

/-- The candidate color table of the earlier map variant (`stylePrecinct`). -/
def candidateColors : List (String × String) :=
  [(("cuomo-a"), ("#1f77b4")),
   (("lander-b"), ("#ff7f0e")),
   (("mamdani-z"), ("#2ca02c")),
   (("ramos-j"), ("#d62728")),
   (("stringer-s"), ("#9467bd")),
   (("blake-m"), ("#8c564b")),
   (("myrie-z"), ("#e377c2")),
   (("tilson-w"), ("#7f7f7f")),
   (("adams-a"), ("#bcbd22"))]

/-- Embeds `stylePrecinct` of the earlier map variant, with its diagnostic sampling
diagnostic sampling made explicit: the sampled value decides only whether a
debug line is logged (second component); the style is the color of the winner or
the neutral fallback. -/
def stylePrecinct (precincts : List PrecinctResult) (rand : ℚ) (f : Feature) :
    Style × Bool :=
  let w := getWinningCandidate (getPrecinctResults precincts f.ElectDist)
  let didLog := decide (rand < 0.01)
  (⟨(match w with
     | some k => (jsLookup candidateColors k).getD ("#cccccc")
     | none => ("#cccccc")), 1, 1, ("white"), ("3"), 7/10⟩, didLog)

/-- The margin-tier table as the specification words it: five ordered bins,
closed below and open above (below 40 lighten by 0.4, then lighten by 0.2,
base color on 50-60, darken by 0.2 on 60-80, darken by 0.3 from 80 up). -/
def tierShade (base : String) (m : ℚ) : String :=
  if m < 40 then lightenColor base 0.4
  else if m < 50 then lightenColor base 0.2
  else if m < 60 then base
  else if m < 80 then darkenColor base 0.2
  else darkenColor base 0.3

/-! ## Helper lemmas -/

lemma votersFillColor_zero : votersFillColor 0 = ("#d62728") := by
  unfold votersFillColor
  rw [if_pos (by norm_num)]

lemma zohranFillColor_zero : zohranFillColor 0 = ("#c51b7d") := by
  unfold zohranFillColor
  rw [if_neg (by norm_num), if_neg (by norm_num), if_neg (by norm_num),
    if_neg (by norm_num), if_neg (by norm_num), if_neg (by norm_num), if_neg (by norm_num)]

/-- A registration record with every count 0, in particular `total = 0`. -/
def vdZero : VoterCounts :=
  ⟨1, ("K"), 0, 0, 0, 0, 0, 0, 0⟩

/-- A registration table that resolves district 1 to `vdZero`. -/
def vcZeroTable : Int → Option VoterCounts :=
  fun d => if d = 1 then some vdZero else none

/-- C1 counterexample: for a registration record with `total = 0`, the code
computes the Democratic registration share as the number 0 (not an undefined
sentinel) and the voter-registration view classifies the precinct into the
lowest-share bucket `#d62728`, not the no-data bucket `#cccccc`. -/
theorem regShareZeroTotal_cex :
    demPercentageOf vdZero = 0 ∧
    (stylePrecinctByVoters vcZeroTable ⟨1⟩).fillColor = ("#d62728") ∧
    (stylePrecinctByVoters vcZeroTable ⟨1⟩).fillColor ≠ ("#cccccc") := by
  refine ⟨by decide, by decide, by decide⟩

/-- C1 amended: the turnout and targeted-support views do map a zero
denominator to the no-data bucket, but the Democratic registration share of a
record with `total = 0` is the number 0 and the registration view classifies
it into the lowest bucket `#d62728` rather than the no-data bucket. -/
theorem zeroDenominator_policy (precincts : List PrecinctResult)
    (voterCounts : Int → Option VoterCounts) (f : Feature) (vd : VoterCounts)
    (hvc : voterCounts f.ElectDist = some vd) (h0 : vd.total = 0) :
    demPercentageOf vd = 0 ∧
    (stylePrecinctByVoters voterCounts f).fillColor = ("#d62728") ∧
    (stylePrecinctByZohranSupport precincts voterCounts f).fillColor = ("#cccccc") ∧
    (vd.democrats = 0 → (stylePrecinctByTurnout precincts voterCounts f).fillColor = ("#cccccc")) := by
  have hdem : demPercentageOf vd = 0 := by
    unfold demPercentageOf
    rw [h0]
    norm_num
  refine ⟨hdem, ?_, ?_, ?_⟩
  · unfold stylePrecinctByVoters
    rw [hvc]
    show votersFillColor (demPercentageOf vd) = ("#d62728")
    rw [hdem, votersFillColor_zero]
  · unfold stylePrecinctByZohranSupport
    cases hpr : getPrecinctResults precincts f.ElectDist with
    | none => rw [hvc]; rfl
    | some pr => rw [hvc]; simp only [if_pos h0]; rfl
  · intro hd
    unfold stylePrecinctByTurnout
    cases hpr : getPrecinctResults precincts f.ElectDist with
    | none => rw [hvc]; rfl
    | some pr => rw [hvc]; simp only [if_pos hd]; rfl

/-- C1 witness: the amended statement at the concrete all-zero registration
record. -/
theorem zeroDenominator_policy_witness :
    demPercentageOf vdZero = 0 ∧
    (stylePrecinctByVoters vcZeroTable ⟨1⟩).fillColor = ("#d62728") ∧
    (stylePrecinctByZohranSupport [] vcZeroTable ⟨1⟩).fillColor = ("#cccccc") ∧
    (vdZero.democrats = 0 → (stylePrecinctByTurnout [] vcZeroTable ⟨1⟩).fillColor = ("#cccccc")) :=
  zeroDenominator_policy [] vcZeroTable ⟨1⟩ vdZero (by decide) (by decide)

/-- C7: a present election record without a `mamdani-z` entry contributes 0
targeted votes; with a positive registered total the derived support is 0% and
lands in the distinct no-support bucket `#c51b7d`, while a missing
registration record lands in the no-data bucket `#cccccc`. -/
theorem zohranSupport_zero_vs_noData (precincts : List PrecinctResult)
    (voterCounts : Int → Option VoterCounts) (f : Feature) (pr : PrecinctResult)
    (vd : VoterCounts)
    (hpr : getPrecinctResults precincts f.ElectDist = some pr)
    (hvc : voterCounts f.ElectDist = some vd)
    (hmz : jsLookup pr.results ("mamdani-z") = none)
    (ht : 0 < vd.total) :
    zohranVotesOf pr = 0 ∧
    zohranVotesOf pr / vd.total * 100 = 0 ∧
    (stylePrecinctByZohranSupport precincts voterCounts f).fillColor = ("#c51b7d") ∧
    (∀ g : Int → Option VoterCounts, g f.ElectDist = none →
      (stylePrecinctByZohranSupport precincts g f).fillColor = ("#cccccc")) ∧
    (("#c51b7d") : String) ≠ ("#cccccc") := by
  have hz : zohranVotesOf pr = 0 := by
    unfold zohranVotesOf
    rw [hmz]
    rfl
  have hpct : zohranVotesOf pr / vd.total * 100 = 0 := by
    rw [hz, zero_div, zero_mul]
  refine ⟨hz, hpct, ?_, ?_, by decide⟩
  · unfold stylePrecinctByZohranSupport
    rw [hpr, hvc]
    show (if vd.total = 0 then noDataStyle else _).fillColor = _
    rw [if_neg (ne_of_gt ht)]
    show zohranFillColor (zohranVotesOf pr / vd.total * 100) = ("#c51b7d")
    rw [hpct, zohranFillColor_zero]
  · intro g hg
    unfold stylePrecinctByZohranSupport
    rw [hpr, hg]
    rfl

/-- An election record for district 1 with no `mamdani-z` entry. -/
def prNoMamdani : PrecinctResult :=
  ⟨("1"), 100, [(("cuomo-a"), 50)]⟩

/-- A registration record for district 1 with a positive total. -/
def vdThousand : VoterCounts :=
  ⟨1, ("K"), 500, 0, 0, 0, 0, 0, 1000⟩

/-- A registration table that resolves district 1 to `vdThousand`. -/
def vcThousandTable : Int → Option VoterCounts :=
  fun d => if d = 1 then some vdThousand else none

/-- C7 witness: the statement at a concrete precinct (votes for the targeted
candidate absent, 1000 registered voters). -/
theorem zohranSupport_zero_vs_noData_witness :
    zohranVotesOf prNoMamdani = 0 ∧
    zohranVotesOf prNoMamdani / vdThousand.total * 100 = 0 ∧
    (stylePrecinctByZohranSupport [prNoMamdani] vcThousandTable ⟨1⟩).fillColor = ("#c51b7d") ∧
    (∀ g : Int → Option VoterCounts, g (Feature.mk 1).ElectDist = none →
      (stylePrecinctByZohranSupport [prNoMamdani] g ⟨1⟩).fillColor = ("#cccccc")) ∧
    (("#c51b7d") : String) ≠ ("#cccccc") :=
  zohranSupport_zero_vs_noData [prNoMamdani] vcThousandTable ⟨1⟩ prNoMamdani vdThousand
    (by decide) (by decide) (by decide) (by decide)

lemma append_ne_empty_left (s t : String) (h : s ≠ ("")) : (s ++ t) ≠ ("") := by
  intro he
  apply h
  have hlen : s.length + t.length = 0 := by
    rw [← String.length_append]
    rw [he]
    decide
  have hs : s.length = 0 := by omega
  have hd : s.data.length = 0 := hs
  cases hdata : s.data with
  | nil =>
    cases s with
    | mk l => cases hdata; rfl
  | cons a l => rw [hdata] at hd; simp at hd

lemma darkenColor_ne_empty (c : String) (a : ℚ) : darkenColor c a ≠ ("") := by
  unfold darkenColor
  apply append_ne_empty_left
  apply append_ne_empty_left
  apply append_ne_empty_left
  decide

lemma lightenColor_ne_empty (c : String) (a : ℚ) : lightenColor c a ≠ ("") := by
  unfold lightenColor
  apply append_ne_empty_left
  apply append_ne_empty_left
  apply append_ne_empty_left
  decide

lemma turnoutFillColor_ne_empty (m : ℚ) : turnoutFillColor m ≠ ("") := by
  unfold turnoutFillColor
  split_ifs <;> decide

lemma votersFillColor_ne_empty (m : ℚ) : votersFillColor m ≠ ("") := by
  unfold votersFillColor
  split_ifs <;> decide

lemma zohranFillColor_ne_empty (m : ℚ) : zohranFillColor m ≠ ("") := by
  unfold zohranFillColor
  split_ifs <;> decide

lemma baseColorFor_ne_empty (k : String) : baseColorFor k ≠ ("") := by
  unfold baseColorFor jsLookup
  cases hf : candidateBaseColors.find? (fun p => p.1 == k) with
  | none => simp [hf]
  | some p =>
    have hmem := List.mem_of_find?_eq_some hf
    have htab : ∀ q ∈ candidateBaseColors, q.2 ≠ ("") := by decide
    simp [hf]
    exact htab p hmem

lemma resultsFillColor_ne_empty (b : String) (m : ℚ) (hb : b ≠ ("")) :
    resultsFillColor b m ≠ ("") := by
  unfold resultsFillColor
  split_ifs with h1 h2 h3 h4
  · exact darkenColor_ne_empty b 0.3
  · exact darkenColor_ne_empty b 0.2
  · exact hb
  · exact lightenColor_ne_empty b 0.2
  · exact lightenColor_ne_empty b 0.4

lemma byResults_noData (ps : List PrecinctResult) (f : Feature)
    (h : getPrecinctResults ps f.ElectDist = none) :
    stylePrecinctByResults ps f = noDataStyle := by
  unfold stylePrecinctByResults
  rw [h]

lemma byTurnout_noData (ps : List PrecinctResult) (vc : Int → Option VoterCounts)
    (f : Feature)
    (h : getPrecinctResults ps f.ElectDist = none ∨ vc f.ElectDist = none) :
    stylePrecinctByTurnout ps vc f = noDataStyle := by
  unfold stylePrecinctByTurnout
  rcases h with h | h
  · rw [h]
  · cases hpr : getPrecinctResults ps f.ElectDist with
    | none => rw [h]
    | some pr => rw [h]

lemma byVoters_noData (vc : Int → Option VoterCounts) (f : Feature)
    (h : vc f.ElectDist = none) :
    stylePrecinctByVoters vc f = noDataStyle := by
  unfold stylePrecinctByVoters
  rw [h]

lemma byZohran_noData (ps : List PrecinctResult) (vc : Int → Option VoterCounts)
    (f : Feature)
    (h : getPrecinctResults ps f.ElectDist = none ∨ vc f.ElectDist = none) :
    stylePrecinctByZohranSupport ps vc f = noDataStyle := by
  unfold stylePrecinctByZohranSupport
  rcases h with h | h
  · rw [h]
  · cases hpr : getPrecinctResults ps f.ElectDist with
    | none => rw [h]
    | some pr => rw [h]

lemma shape_byResults (ps : List PrecinctResult) (f : Feature) :
    ∃ c, stylePrecinctByResults ps f = ⟨c, 1, 1, ("white"), ("3"), 7/10⟩ ∧ c ≠ ("") := by
  unfold stylePrecinctByResults
  cases hpr : getPrecinctResults ps f.ElectDist with
  | none => exact ⟨("#cccccc"), rfl, by decide⟩
  | some pr =>
    cases hw : getWinningCandidate (some pr) with
    | none => exact ⟨("#cccccc"), rfl, by decide⟩
    | some w =>
      exact ⟨_, rfl, resultsFillColor_ne_empty _ _ (baseColorFor_ne_empty w)⟩

lemma shape_byTurnout (ps : List PrecinctResult) (vc : Int → Option VoterCounts)
    (f : Feature) :
    ∃ c, stylePrecinctByTurnout ps vc f = ⟨c, 1, 1, ("white"), ("3"), 7/10⟩ ∧ c ≠ ("") := by
  unfold stylePrecinctByTurnout
  cases hpr : getPrecinctResults ps f.ElectDist with
  | none => exact ⟨("#cccccc"), rfl, by decide⟩
  | some pr =>
    cases hvd : vc f.ElectDist with
    | none => exact ⟨("#cccccc"), rfl, by decide⟩
    | some vd =>
      show ∃ c, (if vd.democrats = 0 then noDataStyle
          else (⟨turnoutFillColor (pr.votes / vd.democrats * 100), 1, 1, ("white"), ("3"),
            7/10⟩ : Style)) = ⟨c, 1, 1, ("white"), ("3"), 7/10⟩ ∧ c ≠ ("")
      by_cases hd : vd.democrats = 0
      · rw [if_pos hd]; exact ⟨("#cccccc"), rfl, by decide⟩
      · rw [if_neg hd]; exact ⟨_, rfl, turnoutFillColor_ne_empty _⟩

lemma shape_byVoters (vc : Int → Option VoterCounts) (f : Feature) :
    ∃ c, stylePrecinctByVoters vc f = ⟨c, 1, 1, ("white"), ("3"), 7/10⟩ ∧ c ≠ ("") := by
  unfold stylePrecinctByVoters
  cases hvd : vc f.ElectDist with
  | none => exact ⟨("#cccccc"), rfl, by decide⟩
  | some vd => exact ⟨_, rfl, votersFillColor_ne_empty _⟩

lemma shape_byZohran (ps : List PrecinctResult) (vc : Int → Option VoterCounts)
    (f : Feature) :
    ∃ c, stylePrecinctByZohranSupport ps vc f = ⟨c, 1, 1, ("white"), ("3"), 7/10⟩ ∧ c ≠ ("") := by
  unfold stylePrecinctByZohranSupport
  cases hpr : getPrecinctResults ps f.ElectDist with
  | none => exact ⟨("#cccccc"), rfl, by decide⟩
  | some pr =>
    cases hvd : vc f.ElectDist with
    | none => exact ⟨("#cccccc"), rfl, by decide⟩
    | some vd =>
      show ∃ c, (if vd.total = 0 then noDataStyle
          else (⟨zohranFillColor (zohranVotesOf pr / vd.total * 100), 1, 1, ("white"), ("3"),
            7/10⟩ : Style)) = ⟨c, 1, 1, ("white"), ("3"), 7/10⟩ ∧ c ≠ ("")
      by_cases ht : vd.total = 0
      · rw [if_pos ht]; exact ⟨("#cccccc"), rfl, by decide⟩
      · rw [if_neg ht]; exact ⟨_, rfl, zohranFillColor_ne_empty _⟩

lemma styleShape (ps : List PrecinctResult) (vc : Int → Option VoterCounts)
    (m : ViewMode) (f : Feature) :
    ∃ c, styleFunction ps vc m f = ⟨c, 1, 1, ("white"), ("3"), 7/10⟩ ∧ c ≠ ("") := by
  unfold styleFunction
  cases m
  case electionResults => rw [if_pos rfl]; exact shape_byResults ps f
  case turnout => rw [if_neg (by decide), if_pos rfl]; exact shape_byTurnout ps vc f
  case zohranSupport =>
    rw [if_neg (by decide), if_neg (by decide), if_pos rfl]
    exact shape_byZohran ps vc f
  case voterRegistration =>
    rw [if_neg (by decide), if_neg (by decide), if_neg (by decide)]
    exact shape_byVoters vc f
  case ageDemographics =>
    rw [if_neg (by decide), if_neg (by decide), if_neg (by decide)]
    exact shape_byVoters vc f

/-- C3: classification is total - for every view mode and feature the
dispatched styling function returns a style whose fill color is a non-empty
color string, and whenever a record required by the active view is missing
the fill color is the neutral no-data bucket `#cccccc`. -/
theorem styleFunction_total_noData (ps : List PrecinctResult)
    (vc : Int → Option VoterCounts) (m : ViewMode) (f : Feature) :
    (requiredRecordMissing ps vc m f → (styleFunction ps vc m f).fillColor = ("#cccccc")) ∧
    (styleFunction ps vc m f).fillColor ≠ ("") := by
  obtain ⟨c, hc, hne⟩ := styleShape ps vc m f
  constructor
  · intro hmiss
    cases m
    case electionResults =>
      have h : getPrecinctResults ps f.ElectDist = none := hmiss
      unfold styleFunction
      rw [if_pos rfl, byResults_noData ps f h]
      rfl
    case turnout =>
      have h : getPrecinctResults ps f.ElectDist = none ∨ vc f.ElectDist = none := hmiss
      unfold styleFunction
      rw [if_neg (by decide), if_pos rfl, byTurnout_noData ps vc f h]
      rfl
    case zohranSupport =>
      have h : getPrecinctResults ps f.ElectDist = none ∨ vc f.ElectDist = none := hmiss
      unfold styleFunction
      rw [if_neg (by decide), if_neg (by decide), if_pos rfl, byZohran_noData ps vc f h]
      rfl
    case voterRegistration =>
      have h : vc f.ElectDist = none := hmiss
      unfold styleFunction
      rw [if_neg (by decide), if_neg (by decide), if_neg (by decide), byVoters_noData vc f h]
      rfl
    case ageDemographics =>
      have h : vc f.ElectDist = none := hmiss
      unfold styleFunction
      rw [if_neg (by decide), if_neg (by decide), if_neg (by decide), byVoters_noData vc f h]
      rfl
  · rw [hc]
    exact hne

/-- C3 witness: the turnout view on an empty snapshot (both joins missing)
yields the no-data fill, which is a non-empty color string. -/
theorem styleFunction_total_noData_witness :
    (styleFunction [] (fun _ => none) ViewMode.turnout ⟨1⟩).fillColor = ("#cccccc") ∧
    (styleFunction [] (fun _ => none) ViewMode.turnout ⟨1⟩).fillColor ≠ ("") :=
  ⟨(styleFunction_total_noData [] (fun _ => none) ViewMode.turnout ⟨1⟩).1 (Or.inl rfl),
   (styleFunction_total_noData [] (fun _ => none) ViewMode.turnout ⟨1⟩).2⟩

/-- C10: across every precinct view mode and every input, the returned style
differs only in its fill color - the stroke attributes are the constants
weight 1, opacity 1, color white, dash pattern 3 and fill opacity 0.7. -/
theorem precinctStyle_frame_constant (ps : List PrecinctResult)
    (vc : Int → Option VoterCounts) (m : ViewMode) (f : Feature) :
    (styleFunction ps vc m f).weight = 1 ∧ (styleFunction ps vc m f).opacity = 1 ∧
    (styleFunction ps vc m f).color = ("white") ∧
    (styleFunction ps vc m f).dashArray = ("3") ∧
    (styleFunction ps vc m f).fillOpacity = 7/10 := by
  obtain ⟨c, hc, -⟩ := styleShape ps vc m f
  rw [hc]
  exact ⟨rfl, rfl, rfl, rfl, rfl⟩

/-- C6 counterexample: the very-low bin of the targeted-support table is open at
its lower boundary - a support of exactly 0 is classified into the separate
no-support bucket, not into the 0-to-2.5 bucket that values just above 0
(such as 5/4) receive. -/
theorem zohran_lowerBoundary_cex :
    zohranFillColor 0 = ("#c51b7d") ∧ zohranFillColor (5/4) = ("#de77ae") ∧
    zohranFillColor 0 ≠ zohranFillColor (5/4) := by
  have h0 : zohranFillColor 0 = ("#c51b7d") := zohranFillColor_zero
  have h54 : zohranFillColor (5/4) = ("#de77ae") := by
    unfold zohranFillColor
    rw [if_neg (by norm_num), if_neg (by norm_num), if_neg (by norm_num),
      if_neg (by norm_num), if_neg (by norm_num), if_neg (by norm_num),
      if_pos (by norm_num)]
  refine ⟨h0, h54, ?_⟩
  rw [h0, h54]
  decide

/-- C6 amended: the turnout and registration tables have 6 bins each, all
closed below and open above with the top bin unbounded; the targeted-support
table has 8 bins that are closed below and open above except its very-low
bin, which is the open-below interval from 0 to 2.5, with supports of at most
0 going to the no-support bin. -/
theorem thresholdTables_bins (m : ℚ) :
    ((60 ≤ m → turnoutFillColor m = ("#1a365d")) ∧
     (50 ≤ m → m < 60 → turnoutFillColor m = ("#2c5282")) ∧
     (40 ≤ m → m < 50 → turnoutFillColor m = ("#3182ce")) ∧
     (30 ≤ m → m < 40 → turnoutFillColor m = ("#63b3ed")) ∧
     (20 ≤ m → m < 30 → turnoutFillColor m = ("#90cdf4")) ∧
     (m < 20 → turnoutFillColor m = ("#bee3f8"))) ∧
    ((m < 30 → votersFillColor m = ("#d62728")) ∧
     (30 ≤ m → m < 40 → votersFillColor m = ("#ff7f0e")) ∧
     (40 ≤ m → m < 50 → votersFillColor m = ("#ffbb78")) ∧
     (50 ≤ m → m < 60 → votersFillColor m = ("#aec7e8")) ∧
     (60 ≤ m → m < 70 → votersFillColor m = ("#1f77b4")) ∧
     (70 ≤ m → votersFillColor m = ("#0d47a1"))) ∧
    ((20 ≤ m → zohranFillColor m = ("#276419")) ∧
     (15 ≤ m → m < 20 → zohranFillColor m = ("#4d9221")) ∧
     (10 ≤ m → m < 15 → zohranFillColor m = ("#7fbc41")) ∧
     (7.5 ≤ m → m < 10 → zohranFillColor m = ("#b8e186")) ∧
     (5 ≤ m → m < 7.5 → zohranFillColor m = ("#d9f0a3")) ∧
     (2.5 ≤ m → m < 5 → zohranFillColor m = ("#f1b6da")) ∧
     (0 < m → m < 2.5 → zohranFillColor m = ("#de77ae")) ∧
     (m ≤ 0 → zohranFillColor m = ("#c51b7d"))) := by
  refine ⟨⟨?_, ?_, ?_, ?_, ?_, ?_⟩, ⟨?_, ?_, ?_, ?_, ?_, ?_⟩, ⟨?_, ?_, ?_, ?_, ?_, ?_, ?_, ?_⟩⟩
  · intro h1
    unfold turnoutFillColor
    rw [if_pos h1]
  · intro h1 h2
    unfold turnoutFillColor
    rw [if_neg (not_le.mpr h2), if_pos h1]
  · intro h1 h2
    unfold turnoutFillColor
    rw [if_neg (not_le.mpr (by linarith)), if_neg (not_le.mpr h2), if_pos h1]
  · intro h1 h2
    unfold turnoutFillColor
    rw [if_neg (not_le.mpr (by linarith)), if_neg (not_le.mpr (by linarith)),
      if_neg (not_le.mpr h2), if_pos h1]
  · intro h1 h2
    unfold turnoutFillColor
    rw [if_neg (not_le.mpr (by linarith)), if_neg (not_le.mpr (by linarith)),
      if_neg (not_le.mpr (by linarith)), if_neg (not_le.mpr h2), if_pos h1]
  · intro h1
    unfold turnoutFillColor
    rw [if_neg (not_le.mpr (by linarith)), if_neg (not_le.mpr (by linarith)),
      if_neg (not_le.mpr (by linarith)), if_neg (not_le.mpr (by linarith)),
      if_neg (not_le.mpr h1)]
  · intro h1
    unfold votersFillColor
    rw [if_pos h1]
  · intro h1 h2
    unfold votersFillColor
    rw [if_neg (not_lt.mpr h1), if_pos h2]
  · intro h1 h2
    unfold votersFillColor
    rw [if_neg (not_lt.mpr (by linarith)), if_neg (not_lt.mpr h1), if_pos h2]
  · intro h1 h2
    unfold votersFillColor
    rw [if_neg (not_lt.mpr (by linarith)), if_neg (not_lt.mpr (by linarith)),
      if_neg (not_lt.mpr h1), if_pos h2]
  · intro h1 h2
    unfold votersFillColor
    rw [if_neg (not_lt.mpr (by linarith)), if_neg (not_lt.mpr (by linarith)),
      if_neg (not_lt.mpr (by linarith)), if_neg (not_lt.mpr h1), if_pos h2]
  · intro h1
    unfold votersFillColor
    rw [if_neg (not_lt.mpr (by linarith)), if_neg (not_lt.mpr (by linarith)),
      if_neg (not_lt.mpr (by linarith)), if_neg (not_lt.mpr (by linarith)),
      if_neg (not_lt.mpr h1)]
  · intro h1
    unfold zohranFillColor
    rw [if_pos h1]
  · intro h1 h2
    unfold zohranFillColor
    rw [if_neg (not_le.mpr h2), if_pos h1]
  · intro h1 h2
    unfold zohranFillColor
    rw [if_neg (not_le.mpr (by linarith)), if_neg (not_le.mpr h2), if_pos h1]
  · intro h1 h2
    unfold zohranFillColor
    rw [if_neg (not_le.mpr (by linarith)), if_neg (not_le.mpr (by linarith)),
      if_neg (not_le.mpr h2), if_pos h1]
  · intro h1 h2
    unfold zohranFillColor
    rw [if_neg (not_le.mpr (by linarith)), if_neg (not_le.mpr (by linarith)),
      if_neg (not_le.mpr (by linarith)), if_neg (not_le.mpr h2), if_pos h1]
  · intro h1 h2
    unfold zohranFillColor
    rw [if_neg (not_le.mpr (by linarith)), if_neg (not_le.mpr (by linarith)),
      if_neg (not_le.mpr (by linarith)), if_neg (not_le.mpr (by linarith)),
      if_neg (not_le.mpr h2), if_pos h1]
  · intro h1 h2
    unfold zohranFillColor
    rw [if_neg (not_le.mpr (by linarith)), if_neg (not_le.mpr (by linarith)),
      if_neg (not_le.mpr (by linarith)), if_neg (not_le.mpr (by linarith)),
      if_neg (not_le.mpr (by linarith)), if_neg (not_le.mpr h2), if_pos h1]
  · intro h1
    unfold zohranFillColor
    rw [if_neg (not_le.mpr (by linarith)), if_neg (not_le.mpr (by linarith)),
      if_neg (not_le.mpr (by linarith)), if_neg (not_le.mpr (by linarith)),
      if_neg (not_le.mpr (by linarith)), if_neg (not_le.mpr (by linarith)),
      if_neg (not_lt.mpr h1)]

/-- C6 witness: the amended statement at the documented boundary inputs - a
turnout of exactly 60 is in the top bin, a Democratic share of exactly 30 is
in the 30-40 bin, and a targeted support of exactly 2.5 is in the 2.5-5 bin. -/
theorem thresholdTables_bins_witness :
    turnoutFillColor 60 = ("#1a365d") ∧ votersFillColor 30 = ("#ff7f0e") ∧
    zohranFillColor (5/2) = ("#f1b6da") :=
  ⟨(thresholdTables_bins 60).1.1 (by norm_num),
   (thresholdTables_bins 30).2.1.2.1 (by norm_num) (by norm_num),
   (thresholdTables_bins (5/2)).2.2.2.2.2.2.2.1 (by norm_num) (by norm_num)⟩

lemma resultsFill_eq_tierShade (b : String) (m : ℚ) :
    resultsFillColor b m = tierShade b m := by
  unfold resultsFillColor tierShade
  split_ifs <;> first | rfl | linarith

/-- C5: in the results view, a precinct with a resolved election record and a
winner is filled with the base hue of the winner shaded by the five ordered margin
tiers (below 40 lighten 0.4, 40-50 lighten 0.2, 50-60 base, 60-80 darken 0.2,
from 80 darken 0.3), the bins being closed below and open above. -/
theorem resultsView_marginTiers (ps : List PrecinctResult) (f : Feature)
    (pr : PrecinctResult) (w : String)
    (hpr : getPrecinctResults ps f.ElectDist = some pr)
    (hw : getWinningCandidate (some pr) = some w) :
    (stylePrecinctByResults ps f).fillColor =
      tierShade (baseColorFor w) (winPercentageOf pr w) := by
  unfold stylePrecinctByResults
  rw [hpr, hw]
  show resultsFillColor (baseColorFor w) (winPercentageOf pr w) = _
  exact resultsFill_eq_tierShade _ _

/-- An election record for district 1 whose winner takes exactly half the
votes (write-ins excluded from ranking but counted in the total). -/
def prHalf : PrecinctResult :=
  ⟨("1"), 100, [(("mamdani-z"), 50), (("cuomo-a"), 30), (("total_writeins"), 20)]⟩

/-- C5 witness: at a win margin of exactly 50 the moderate tier applies and
the fill is the unshaded base hue of the winner. -/
theorem resultsView_marginTiers_witness :
    (stylePrecinctByResults [prHalf] ⟨1⟩).fillColor = ("#2ca02c") := by
  have h := resultsView_marginTiers [prHalf] ⟨1⟩ prHalf ("mamdani-z") (by decide) (by decide)
  rw [h]
  have hb : baseColorFor ("mamdani-z") = ("#2ca02c") := by decide
  have hl : jsLookup prHalf.results ("mamdani-z") = some 50 := by decide
  have hm : winPercentageOf prHalf ("mamdani-z") = 50 := by
    unfold winPercentageOf
    rw [hl]
    show (if (100 : ℚ) > 0 then (50 : ℚ) / 100 * 100 else 0) = 50
    rw [if_pos (by norm_num)]
    norm_num
  rw [hm, hb]
  unfold tierShade
  rw [if_neg (by norm_num), if_neg (by norm_num), if_pos (by norm_num)]

/-- C9: re-styling is deterministic - the style component of the earlier
variant `stylePrecinct` does not depend on the `Math.random()` sample, which
only gates its diagnostic logging, so equal features yield equal styles across
invocations. -/
theorem stylePrecinct_rand_independent (ps : List PrecinctResult) (f : Feature)
    (r₁ r₂ : ℚ) :
    (stylePrecinct ps r₁ f).1 = (stylePrecinct ps r₂ f).1 := rfl

lemma getPrecinctResults_some_aux (ps : List PrecinctResult) (q : Int) :
    ∀ r, getPrecinctResults ps q = some r →
      r.item_id = toString q ∧
      ∃ l₁ l₂, ps = l₁ ++ r :: l₂ ∧ ∀ p ∈ l₁, p.item_id ≠ toString q := by
  induction ps with
  | nil =>
    intro r hr
    simp [getPrecinctResults] at hr
  | cons a t ih =>
    intro r hr
    unfold getPrecinctResults at hr
    cases hb : (a.item_id == toString q) with
    | true =>
      rw [List.find?_cons] at hr
      simp only [hb] at hr
      obtain rfl : a = r := by injection hr
      refine ⟨eq_of_beq hb, [], t, rfl, ?_⟩
      intro p hp
      simp at hp
    | false =>
      rw [List.find?_cons] at hr
      simp only [hb] at hr
      obtain ⟨hid, l₁, l₂, hsplit, hl₁⟩ := ih r hr
      refine ⟨hid, a :: l₁, l₂, by rw [hsplit]; rfl, ?_⟩
      intro p hp
      rcases List.mem_cons.mp hp with rfl | hp2
      · intro he
        rw [he] at hb
        simp at hb
      · exact hl₁ p hp2

/-- C8: the election join resolver returns the first stored record whose
`item_id` equals the decimal-string form of the queried district (so a hit
always carries the normalized identifier and duplicates resolve to the first
match), and it returns `none` exactly when no stored record matches. -/
theorem getPrecinctResults_firstMatch (ps : List PrecinctResult) (q : Int) :
    (∀ r, getPrecinctResults ps q = some r →
      r.item_id = toString q ∧
      ∃ l₁ l₂, ps = l₁ ++ r :: l₂ ∧ ∀ p ∈ l₁, p.item_id ≠ toString q) ∧
    (getPrecinctResults ps q = none ↔ ∀ p ∈ ps, p.item_id ≠ toString q) := by
  refine ⟨getPrecinctResults_some_aux ps q, ?_⟩
  unfold getPrecinctResults
  rw [List.find?_eq_none]
  constructor
  · intro h p hp he
    have := h p hp
    rw [he] at this
    simp at this
  · intro h p hp
    simp only [beq_iff_eq]
    exact h p hp

/-- Two records sharing the stored identifier 7, to exercise the
first-match-on-duplicates behavior. -/
def prSevenA : PrecinctResult := ⟨("7"), 10, []⟩

/-- A duplicate-identifier record stored after `prSevenA`. -/
def prSevenB : PrecinctResult := ⟨("7"), 20, []⟩

/-- C8 witness: on a collection with duplicate identifier 7 the resolver
returns the first stored record, whose identifier equals the normalized
query. -/
theorem getPrecinctResults_firstMatch_witness :
    getPrecinctResults [prSevenA, prSevenB] 7 = some prSevenA ∧
    prSevenA.item_id = toString (7 : Int) ∧
    (∃ l₁ l₂, [prSevenA, prSevenB] = l₁ ++ prSevenA :: l₂ ∧
      ∀ p ∈ l₁, p.item_id ≠ toString (7 : Int)) ∧
    getPrecinctResults [] (7 : Int) = none :=
  ⟨by decide,
   ((getPrecinctResults_firstMatch [prSevenA, prSevenB] 7).1 prSevenA (by decide)).1,
   ((getPrecinctResults_firstMatch [prSevenA, prSevenB] 7).1 prSevenA (by decide)).2,
   (getPrecinctResults_firstMatch [] 7).2.mpr (by intro p hp; simp at hp)⟩

lemma firstMax_cons_ne_none (x : CandidateEntry) (t : List CandidateEntry) :
    firstMax (x :: t) ≠ none := by
  unfold firstMax
  cases hft : firstMax t with
  | none =>
    show some x ≠ none
    simp
  | some m =>
    show (if m.2 > x.2 then some m else some x) ≠ none
    split_ifs <;> simp

lemma sortByVotesDesc_head (l : List CandidateEntry) :
    (sortByVotesDesc l).head? = firstMax l := by
  induction l with
  | nil => rfl
  | cons x t ih =>
    unfold sortByVotesDesc firstMax
    cases ht : sortByVotesDesc t with
    | nil =>
      have h: firstMax t = none := by rw [← ih, ht]; rfl
      rw [h]
      rfl
    | cons y s =>
      have hy : firstMax t = some y := by rw [← ih, ht]; rfl
      rw [hy]
      show (insertByVotes x (y :: s)).head? = if y.2 > x.2 then some y else some x
      unfold insertByVotes
      by_cases hc : y.2 ≤ x.2
      · rw [if_pos hc, if_neg (not_lt.mpr hc)]
        rfl
      · rw [if_neg hc, if_pos (lt_of_not_le hc)]
        rfl

lemma firstMax_spec (l : List CandidateEntry) :
    ∀ m, firstMax l = some m →
      ∃ l₁ l₂, l = l₁ ++ m :: l₂ ∧ (∀ p ∈ l₁, p.2 < m.2) ∧ (∀ p ∈ l, p.2 ≤ m.2) := by
  induction l with
  | nil =>
    intro m h
    simp [firstMax] at h
  | cons x t ih =>
    intro m h
    unfold firstMax at h
    cases hft : firstMax t with
    | none =>
      rw [hft] at h
      obtain rfl : x = m := by injection h
      have ht : t = [] := by
        cases t with
        | nil => rfl
        | cons y s => exact absurd hft (firstMax_cons_ne_none y s)
      subst ht
      exact ⟨[], [], rfl, by simp, by simp⟩
    | some mt =>
      rw [hft] at h
      have h2 : (if mt.2 > x.2 then some mt else some x) = some m := h
      by_cases hc : mt.2 > x.2
      · rw [if_pos hc] at h2
        obtain rfl : mt = m := by injection h2
        obtain ⟨l₁, l₂, hsplit, hlt, hle⟩ := ih mt hft
        refine ⟨x :: l₁, l₂, by rw [hsplit]; rfl, ?_, ?_⟩
        · intro p hp
          rcases List.mem_cons.mp hp with rfl | hp2
          · exact hc
          · exact hlt p hp2
        · intro p hp
          rcases List.mem_cons.mp hp with rfl | hp2
          · exact le_of_lt hc
          · exact hle p hp2
      · rw [if_neg hc] at h2
        obtain rfl : x = m := by injection h2
        obtain ⟨l₁, l₂, hsplit, hlt, hle⟩ := ih mt hft
        refine ⟨[], t, rfl, by simp, ?_⟩
        intro p hp
        rcases List.mem_cons.mp hp with rfl | hp2
        · exact le_refl _
        · exact le_trans (hle p hp2) (not_lt.mp hc)

lemma getWinningCandidate_some (pr : PrecinctResult) :
    getWinningCandidate (some pr) =
      match sortByVotesDesc (filteredCandidates pr) with
      | [] => none
      | c :: _ => if c.1 = ("") then none else some c.1 := rfl

/-- A record whose only candidate key is the empty string. -/
def prEmptyKey : PrecinctResult := ⟨("0"), 3, [((""), 3)]⟩

/-- C2 counterexample: a record whose non-write-in candidate mapping is
non-empty (its only key is the empty string) still yields a `null` winner,
because JS `candidates[0]?.[0] || null` treats the falsy empty-string key as
no winner. -/
theorem winner_emptyKey_cex :
    getWinningCandidate (some prEmptyKey) = none ∧ filteredCandidates prEmptyKey ≠ [] :=
  ⟨by decide, by decide⟩

/-- C2 amended: the winner is `null` exactly when the filtered candidate list
is empty or its first-encountered maximal entry has the empty-string key;
a returned winner is a non-empty key holding the maximum vote count, with
every earlier-encountered entry strictly below it (first-encountered
tie-break). -/
theorem getWinningCandidate_characterization (pr : PrecinctResult) :
    (getWinningCandidate (some pr) = none ↔
      filteredCandidates pr = [] ∨
        ∃ v, firstMax (filteredCandidates pr) = some ((""), v)) ∧
    (∀ k, getWinningCandidate (some pr) = some k →
      k ≠ ("") ∧ ∃ l₁ l₂ v, filteredCandidates pr = l₁ ++ (k, v) :: l₂ ∧
        (∀ p ∈ l₁, p.2 < v) ∧ (∀ p ∈ filteredCandidates pr, p.2 ≤ v)) := by
  constructor
  · rw [getWinningCandidate_some]
    cases hs : sortByVotesDesc (filteredCandidates pr) with
    | nil =>
      have hfm : firstMax (filteredCandidates pr) = none := by
        rw [← sortByVotesDesc_head, hs]
        rfl
      have hfe : filteredCandidates pr = [] := by
        cases hfc : filteredCandidates pr with
        | nil => rfl
        | cons y s =>
          rw [hfc] at hfm
          exact absurd hfm (firstMax_cons_ne_none y s)
      show (none : Option String) = none ↔ _
      simp [hfe]
    | cons c rest =>
      have hfm : firstMax (filteredCandidates pr) = some c := by
        rw [← sortByVotesDesc_head, hs]
        rfl
      show (if c.1 = ("") then none else some c.1) = none ↔ _
      by_cases hk : c.1 = ("")
      · rw [if_pos hk]
        refine ⟨fun h2 => Or.inr ⟨c.2, ?_⟩, fun h2 => rfl⟩
        rw [hfm, ← hk]
      · rw [if_neg hk]
        constructor
        · intro h2
          exact absurd h2 (by simp)
        · intro h2
          rcases h2 with hfe | ⟨v, hv⟩
          · rw [hfe] at hs
            exact absurd hs (by simp [sortByVotesDesc])
          · rw [hfm] at hv
            injection hv with hv2
            exact absurd (by rw [hv2]) hk
  · intro k hk
    rw [getWinningCandidate_some] at hk
    cases hs : sortByVotesDesc (filteredCandidates pr) with
    | nil =>
      rw [hs] at hk
      simp at hk
    | cons c rest =>
      rw [hs] at hk
      have hk3 : (if c.1 = ("") then none else some c.1) = some k := hk
      by_cases hke : c.1 = ("")
      · rw [if_pos hke] at hk3
        simp at hk3
      · rw [if_neg hke] at hk3
        injection hk3 with hk2
        have hfm : firstMax (filteredCandidates pr) = some c := by
          rw [← sortByVotesDesc_head, hs]
          rfl
        obtain ⟨l₁, l₂, hsplit, hlt, hle⟩ := firstMax_spec _ c hfm
        subst hk2
        refine ⟨hke, l₁, l₂, c.2, ?_, hlt, hle⟩
        rw [hsplit]

/-- A record with an exact tie at the maximum between the first- and
second-encountered candidates. -/
def prTie : PrecinctResult :=
  ⟨("2"), 9, [(("cuomo-a"), 4), (("mamdani-z"), 4), (("ramos-j"), 1)]⟩

/-- C2 witness: on an exact two-way tie the winner is the first-encountered
key, which carries the maximal count. -/
theorem getWinningCandidate_characterization_witness :
    (("cuomo-a") : String) ≠ ("") ∧
    ∃ l₁ l₂ v, filteredCandidates prTie = l₁ ++ (("cuomo-a"), v) :: l₂ ∧
      (∀ p ∈ l₁, p.2 < v) ∧ (∀ p ∈ filteredCandidates prTie, p.2 ≤ v) :=
  (getWinningCandidate_characterization prTie).2 ("cuomo-a") (by decide)

lemma calculateGenZPercentage_some (groups : List (String × Option ℚ)) (tp : ℚ) :
    calculateGenZPercentage (some groups) tp =
      if tp = 0 then none
      else if genZCount groups = 0 then none
      else some (genZCount groups / tp * 100) := rfl

lemma foldl_addContribution (t : List (String × Option ℚ)) :
    ∀ a : ℚ, t.foldl (fun acc p => acc + genZContribution p) a =
      a + t.foldl (fun acc p => acc + genZContribution p) 0 := by
  induction t with
  | nil =>
    intro a
    simp
  | cons q s ih =>
    intro a
    show s.foldl _ (a + genZContribution q) = a + s.foldl _ (0 + genZContribution q)
    rw [ih (a + genZContribution q), ih (0 + genZContribution q)]
    ring

lemma genZCount_cons (p : String × Option ℚ) (t : List (String × Option ℚ)) :
    genZCount (p :: t) = genZContribution p + genZCount t := by
  unfold genZCount
  show t.foldl _ (0 + genZContribution p) = _
  rw [foldl_addContribution t (0 + genZContribution p)]
  ring

lemma jsLookup_cons {α : Type} (k : String) (v : α) (t : List (String × α)) (name : String) :
    jsLookup ((k, v) :: t) name = if k = name then some v else jsLookup t name := by
  unfold jsLookup
  rw [List.find?_cons]
  by_cases h : k = name
  · rw [if_pos h]
    have hb : (((k, v) : String × α).1 == name) = true := by
      rw [beq_iff_eq]
      exact h
    rw [hb]
    rfl
  · rw [if_neg h]
    have hb : (((k, v) : String × α).1 == name) = false := by
      rw [beq_eq_false_iff_ne]
      exact h
    rw [hb]

lemma bracketTotal_cons (k : String) (v : Option ℚ) (t : List (String × Option ℚ))
    (name : String) :
    bracketTotal ((k, v) :: t) name =
      if k = name then v.getD 0 else bracketTotal t name := by
  unfold bracketTotal
  rw [jsLookup_cons]
  by_cases h : k = name
  · rw [if_pos h, if_pos h]
    cases v <;> rfl
  · rw [if_neg h, if_neg h]

lemma bracketTotal_not_mem (t : List (String × Option ℚ)) (name : String)
    (h : name ∉ t.map (fun p => p.1)) : bracketTotal t name = 0 := by
  unfold bracketTotal jsLookup
  rw [List.find?_eq_none.mpr ?hnone]
  case hnone =>
    intro p hp hbe
    apply h
    rw [List.mem_map]
    exact ⟨p, hp, eq_of_beq hbe⟩
  rfl

lemma genZContribution_eq (k : String) (v : Option ℚ)
    (hv : ∀ c, v = some c → 0 ≤ c) :
    genZContribution (k, v) =
      (if k = ("10 to 14 years") then 0.8 * v.getD 0
       else if k = ("15 to 19 years") then v.getD 0
       else if k = ("20 to 24 years") then v.getD 0
       else if k = ("25 to 29 years") then 0.4 * v.getD 0
       else 0) := by
  cases v with
  | none =>
    show (0 : ℚ) = _
    split_ifs <;> norm_num
  | some c =>
    have hc := hv c rfl
    show (if c > 0 then _ else 0) = _
    simp only [Option.getD_some]
    rcases lt_or_eq_of_le hc with hpos | hzero
    · rw [if_pos hpos]
      split_ifs <;> first | ring | rfl
    · rw [if_neg (by rw [← hzero]; norm_num)]
      split_ifs <;> first | rfl | (rw [← hzero]; try norm_num)

lemma genZCount_eq_spec (groups : List (String × Option ℚ)) :
    (groups.map (fun p => p.1)).Nodup →
    (∀ p ∈ groups, ∀ c, p.2 = some c → 0 ≤ c) →
    genZCount groups = specGenZWeightedSum groups := by
  induction groups with
  | nil =>
    intro _ _
    show (0 : ℚ) = _
    unfold specGenZWeightedSum
    rw [bracketTotal_not_mem [] _ (by simp), bracketTotal_not_mem [] _ (by simp),
      bracketTotal_not_mem [] _ (by simp), bracketTotal_not_mem [] _ (by simp)]
    norm_num
  | cons q t ih =>
    intro hnd hnn
    obtain ⟨k, v⟩ := q
    rw [List.map_cons, List.nodup_cons] at hnd
    have hkt : k ∉ t.map (fun p => p.1) := hnd.1
    have hnd2 : (t.map (fun p => p.1)).Nodup := hnd.2
    have hnn2 : ∀ p ∈ t, ∀ c, p.2 = some c → 0 ≤ c :=
      fun p hp => hnn p (List.mem_cons_of_mem _ hp)
    have hvk : ∀ c, v = some c → 0 ≤ c := fun c hc => hnn (k, v) (List.mem_cons_self _ _) c hc
    rw [genZCount_cons, ih hnd2 hnn2, genZContribution_eq k v hvk]
    unfold specGenZWeightedSum
    rw [bracketTotal_cons, bracketTotal_cons, bracketTotal_cons, bracketTotal_cons]
    by_cases h1 : k = ("10 to 14 years")
    · subst h1
      rw [bracketTotal_not_mem t _ hkt]
      simp
      try ring
    · by_cases h2 : k = ("15 to 19 years")
      · subst h2
        rw [bracketTotal_not_mem t _ hkt]
        simp
        try ring
      · by_cases h3 : k = ("20 to 24 years")
        · subst h3
          rw [bracketTotal_not_mem t _ hkt]
          simp
          try ring
        · by_cases h4 : k = ("25 to 29 years")
          · subst h4
            rw [bracketTotal_not_mem t _ hkt]
            simp
            try ring
          · simp [h1, h2, h3, h4]
            try ring

/-- C4 counterexample: a tract with a positive total population (100) whose
age groups contain no Gen-Z bracket yields `null` (the accumulated Gen-Z
count is 0), although the claim requires the share to be defined whenever the
total population is positive. -/
theorem genZ_zeroCount_cex :
    (0 : ℚ) < 100 ∧
    calculateGenZPercentage (some [(("30 to 34 years"), some 100)]) 100 = none := by
  constructor
  · norm_num
  · have hcontrib : genZContribution ((("30 to 34 years") : String), some (100 : ℚ)) = 0 := by
      decide
    have hcount : genZCount [(("30 to 34 years"), some 100)] = 0 := by
      unfold genZCount
      show (0 : ℚ) + genZContribution (("30 to 34 years"), some 100) = 0
      rw [hcontrib, add_zero]
    rw [calculateGenZPercentage_some, if_neg (by norm_num), if_pos hcount]

/-- C4 amended: the Gen-Z share is `null` when the age-group object is
absent, the total population is 0, or the weighted Gen-Z count is 0; for a
well-formed record (unique bracket names, non-negative counts) with positive
population and a non-zero weighted count it equals
0.8 x count(10-14) + count(15-19) + count(20-24) + 0.4 x count(25-29),
divided by the total population and scaled to percent. -/
theorem calculateGenZPercentage_characterization
    (groups : List (String × Option ℚ)) (totalPop : ℚ) :
    calculateGenZPercentage none totalPop = none ∧
    calculateGenZPercentage (some groups) 0 = none ∧
    ((groups.map (fun p => p.1)).Nodup →
      (∀ p ∈ groups, ∀ c, p.2 = some c → 0 ≤ c) →
      0 < totalPop →
      calculateGenZPercentage (some groups) totalPop =
        (if specGenZWeightedSum groups = 0 then none
         else some (specGenZWeightedSum groups / totalPop * 100))) := by
  refine ⟨rfl, ?_, ?_⟩
  · rw [calculateGenZPercentage_some, if_pos rfl]
  · intro hnd hnn hpos
    rw [calculateGenZPercentage_some, if_neg (ne_of_gt hpos),
      genZCount_eq_spec groups hnd hnn]

/-- A well-formed age-group list with three Gen-Z brackets and one
non-Gen-Z bracket. -/
def genZGroupsDemo : List (String × Option ℚ) :=
  [(("10 to 14 years"), some 100), (("15 to 19 years"), some 50),
   (("25 to 29 years"), some 10), (("65 to 69 years"), some 40)]

/-- C4 witness: the amended statement discharged on a concrete well-formed
tract with population 1000. -/
theorem calculateGenZPercentage_characterization_witness :
    calculateGenZPercentage (some genZGroupsDemo) 1000 =
      (if specGenZWeightedSum genZGroupsDemo = 0 then none
       else some (specGenZWeightedSum genZGroupsDemo / 1000 * 100)) :=
  (calculateGenZPercentage_characterization genZGroupsDemo 1000).2.2
    (by decide) (by decide) (by decide)
